import Mathlib

/-!
Verification of the connexa_monitor reconciliation and adoption-metrics layer.

The repository is a Streamlit reporting layer over two order-management
systems.  The logic verified here is embedded shallowly from the source:

* `pages/01_Indicador_Uso_General.py`: `_iso_week_monday` (ISO week-string
  parsing, mirroring CPython's `date.fromisocalendar` / `isocalendar`),
  the weekly loaders `load_uso_semanal_comprador` / `load_uso_semanal_proveedor`.
* `modules/queries/sgm_bridge.py`: the SQL bodies `SQL_SGM_KIKKER_VS_OC_MENSUAL`,
  `SQL_SGM_KIKKER_DUP` and `SQL_SGM_I3_MENSUAL`, modelled as pure functions on
  row lists with SQL three-valued comparison semantics made explicit.
* `modules/queries/uso_general.py`: `get_embudo_connexa_sgm_mensual` and
  `get_proporcion_ci_vs_sgm_mensual` (pandas post-processing of query results).
* `pages/07_Stock_por_Sucursal.py`: `SQL_FALLBACK_STOCK_CARTERA_30D`'s
  `dias_stock` expression, `preparar_dataset`, and the dynamic over-stock flag.

Numeric columns are modelled with `ℚ` (pandas floats carry exact decimal data
here), SQL `NULL` / pandas `NaN` with `Option`, and dates with explicit
(year, month, day) triples or proleptic-Gregorian ordinals as appropriate.
-/

/-! ## Proleptic Gregorian calendar, mirroring CPython `datetime`.

CPython's `datetime` module works on ordinals: day 1 is 0001-01-01.
`_days_before_year(y) = (y-1)*365 + (y-1)//4 - (y-1)//100 + (y-1)//400`.
All quantities below are natural numbers; the one place CPython's algorithm
can produce a negative intermediate (`divmod(today - week1monday, 7)` with
`today < week1monday`) is mirrored by an explicit branch on
`o < week1monday`, which is exactly the `week < 0` test of the source. -/

/-- Leap year test, as CPython `_is_leap`:
`y % 4 == 0 and (y % 100 != 0 or y % 400 == 0)`. -/
def isLeap (y : ℕ) : Prop := y % 4 = 0 ∧ (y % 100 ≠ 0 ∨ y % 400 = 0)

instance (y : ℕ) : Decidable (isLeap y) := by unfold isLeap; infer_instance

/-- Days in Gregorian year `y` (366 on leap years). -/
def daysInYear (y : ℕ) : ℕ := if isLeap y then 366 else 365

/-- CPython `_days_before_year`: days between 0001-01-01 and Jan 1 of year `y`. -/
def daysBeforeYear (y : ℕ) : ℕ :=
  365 * (y - 1) + (y - 1) / 4 - (y - 1) / 100 + (y - 1) / 400

/-- Ordinal of Jan 1 of year `y` (`_ymd2ord(y, 1, 1)`). -/
def jan1ord (y : ℕ) : ℕ := daysBeforeYear y + 1

/-- Weekday index of Jan 1 of year `y`, Monday = 0 (CPython
`firstweekday = _ymd2ord(year, 1, 1) % 7` shifted: `(firstday + 6) % 7`). -/
def firstweekday (y : ℕ) : ℕ := (jan1ord y + 6) % 7

/-- CPython `_isoweek1monday`: ordinal of the Monday starting ISO week 1 of
year `y` (`week1monday = firstday - firstweekday`, plus 7 when
`firstweekday > THURSDAY = 3`). -/
def isoweek1monday (y : ℕ) : ℕ :=
  if firstweekday y > 3 then jan1ord y - firstweekday y + 7
  else jan1ord y - firstweekday y

/-- The Gregorian year containing ordinal `o`: the year component of CPython
`_ord2ymd(o)`, characterized by `daysBeforeYear y < o ≤ daysBeforeYear (y+1)`.
Computed as the greatest year whose Jan 1 is not after `o`, searched below an
upper estimate. -/
def yearOfOrdinal (o : ℕ) : ℕ :=
  Nat.findGreatest (fun y => daysBeforeYear y < o) ((o - 1) / 365 + 1)

/-- CPython `date.isocalendar()` on the date with ordinal `o`; returns
`(iso_year, iso_week, iso_weekday)` with Monday = 1.  Mirrors the source:
`week, day = divmod(today - week1monday, 7)`, with the `week < 0` branch
re-anchoring to the previous year and the `week >= 52` branch bumping to the
next year when `today >= _isoweek1monday(year+1)`. -/
def isocalendar (o : ℕ) : ℕ × ℕ × ℕ :=
  if o < isoweek1monday (yearOfOrdinal o) then
    -- CPython: week < 0, recompute against year - 1
    (yearOfOrdinal o - 1,
     (o - isoweek1monday (yearOfOrdinal o - 1)) / 7 + 1,
     (o - isoweek1monday (yearOfOrdinal o - 1)) % 7 + 1)
  else if 52 ≤ (o - isoweek1monday (yearOfOrdinal o)) / 7 ∧
      isoweek1monday (yearOfOrdinal o + 1) ≤ o then
    (yearOfOrdinal o + 1, 1, (o - isoweek1monday (yearOfOrdinal o)) % 7 + 1)
  else
    (yearOfOrdinal o,
     (o - isoweek1monday (yearOfOrdinal o)) / 7 + 1,
     (o - isoweek1monday (yearOfOrdinal o)) % 7 + 1)

/-- The long-ISO-year test used by CPython `_isoweek_to_gregorian` for week 53:
Jan 1 is a Thursday (`ord % 7 == 4`), or a Wednesday (`== 3`) of a leap year. -/
def isoLongYear (y : ℕ) : Prop :=
  jan1ord y % 7 = 4 ∨ (jan1ord y % 7 = 3 ∧ isLeap y)

instance (y : ℕ) : Decidable (isoLongYear y) := by unfold isoLongYear; infer_instance

/-- Validity check of CPython `_isoweek_to_gregorian` (raises otherwise):
`MINYEAR <= year <= MAXYEAR`, `0 < week < 53` or week 53 of a long year,
`0 < day < 8`. -/
def validIsoWeekDate (y w d : ℕ) : Prop :=
  1 ≤ y ∧ y ≤ 9999 ∧ 1 ≤ w ∧ (w ≤ 52 ∨ (w = 53 ∧ isoLongYear y)) ∧ 1 ≤ d ∧ d ≤ 7

instance (y w d : ℕ) : Decidable (validIsoWeekDate y w d) := by
  unfold validIsoWeekDate; infer_instance

/-- Ordinal produced by CPython `_isoweek_to_gregorian` once validated:
`_isoweek1monday(year) + (week - 1) * 7 + (day - 1)`. -/
def fromisocalendarOrd (y w d : ℕ) : ℕ := isoweek1monday y + (w - 1) * 7 + (d - 1)

-- ### Calendar arithmetic lemmas

set_option maxHeartbeats 1000000 in
theorem daysBeforeYear_succ (y : ℕ) (hy : 1 ≤ y) :
    daysBeforeYear (y + 1) = daysBeforeYear y + daysInYear y := by
  obtain ⟨m, rfl⟩ : ∃ m, y = m + 1 := ⟨y - 1, by omega⟩
  unfold daysBeforeYear daysInYear
  split
  case isTrue h => unfold isLeap at h; omega
  case isFalse h => unfold isLeap at h; omega

theorem daysBeforeYear_mono {a b : ℕ} (h : a ≤ b) :
    daysBeforeYear a ≤ daysBeforeYear b := by
  unfold daysBeforeYear
  have h4 : (a - 1) / 4 ≤ (b - 1) / 4 := Nat.div_le_div_right (by omega)
  have h100 : (a - 1) / 100 ≤ (b - 1) / 100 := Nat.div_le_div_right (by omega)
  have h400 : (a - 1) / 400 ≤ (b - 1) / 400 := Nat.div_le_div_right (by omega)
  omega

theorem daysBeforeYear_ge (y : ℕ) : 365 * (y - 1) ≤ daysBeforeYear y := by
  unfold daysBeforeYear; omega

theorem yearOfOrdinal_eq {o y : ℕ} (h1 : daysBeforeYear y < o)
    (h2 : o ≤ daysBeforeYear (y + 1)) : yearOfOrdinal o = y := by
  unfold yearOfOrdinal
  rw [Nat.findGreatest_eq_iff]
  refine ⟨?_, fun _ => h1, ?_⟩
  · have := daysBeforeYear_ge y
    have hdiv : (y - 1) * 365 ≤ o - 1 := by omega
    have := (Nat.le_div_iff_mul_le (by norm_num : 0 < 365)).2 hdiv
    omega
  · intro n hn _
    have : daysBeforeYear (y + 1) ≤ daysBeforeYear n := daysBeforeYear_mono (by omega)
    omega

theorem isoweek1monday_bounds (y : ℕ) (hy : 1 ≤ y) :
    isoweek1monday y % 7 = 1 ∧ 1 ≤ isoweek1monday y ∧
      jan1ord y ≤ isoweek1monday y + 3 ∧ isoweek1monday y ≤ jan1ord y + 3 := by
  rcases Nat.lt_or_ge y 2 with h1 | h2
  · have hy1 : y = 1 := by omega
    subst hy1
    decide
  · have h365 : 365 ≤ daysBeforeYear y := by
      have := daysBeforeYear_ge y
      omega
    unfold isoweek1monday firstweekday jan1ord
    split_ifs <;> omega

set_option maxHeartbeats 1000000 in
theorem isoweek1monday_succ (y : ℕ) (hy : 1 ≤ y) :
    (isoLongYear y → isoweek1monday (y + 1) = isoweek1monday y + 371) ∧
      (¬isoLongYear y → isoweek1monday (y + 1) = isoweek1monday y + 364) := by
  have hs := daysBeforeYear_succ y hy
  rcases Nat.lt_or_ge y 2 with h1 | h2
  · have hy1 : y = 1 := by omega
    subst hy1
    refine ⟨fun h => ?_, fun h => by decide⟩
    exact absurd h (by decide)
  · have h365 : 365 ≤ daysBeforeYear y := by
      have := daysBeforeYear_ge y
      omega
    have h365s : 365 ≤ daysBeforeYear (y + 1) := by
      have := daysBeforeYear_ge (y + 1)
      omega
    by_cases hL : isLeap y
    · rw [daysInYear, if_pos hL] at hs
      unfold isLeap at hL
      unfold isoweek1monday isoLongYear firstweekday isLeap jan1ord
      split_ifs <;> omega
    · rw [daysInYear, if_neg hL] at hs
      unfold isLeap at hL
      unfold isoweek1monday isoLongYear firstweekday isLeap jan1ord
      split_ifs <;> omega

/-- Round trip at the ordinal level: `isocalendar` applied to the ordinal that
`fromisocalendar(y, w, 1)` produces recovers `(y, w, 1)`, for every pair that
passes CPython's validity check. -/
theorem isocalendar_fromisocalendarOrd (y w : ℕ) (hy1 : 1 ≤ y) (hy2 : y ≤ 9999)
    (hw1 : 1 ≤ w) (hw : w ≤ 52 ∨ (w = 53 ∧ isoLongYear y)) :
    isocalendar (fromisocalendarOrd y w 1) = (y, w, 1) := by
  have hd7 : (w - 1) * 7 / 7 = w - 1 := by omega
  have hm7 : (w - 1) * 7 % 7 = 0 := by omega
  have hb := isoweek1monday_bounds y hy1
  have hbs := isoweek1monday_bounds (y + 1) (by omega)
  have hsucc := isoweek1monday_succ y hy1
  have hoeq : fromisocalendarOrd y w 1 = isoweek1monday y + (w - 1) * 7 := by
    unfold fromisocalendarOrd
    omega
  rw [hoeq]
  -- next year's week-1 Monday is at least a full week past the ordinal
  have hnext : isoweek1monday y + (w - 1) * 7 + 7 ≤ isoweek1monday (y + 1) := by
    rcases hw with hw52 | ⟨hw53, hlong⟩
    · rcases Classical.em (isoLongYear y) with hL | hL
      · have := hsucc.1 hL
        omega
      · have := hsucc.2 hL
        omega
    · have := hsucc.1 hlong
      omega
  have hupper : isoweek1monday y + (w - 1) * 7 ≤ daysBeforeYear (y + 1) := by
    unfold jan1ord at hbs
    omega
  have hsub : isoweek1monday y + (w - 1) * 7 - isoweek1monday y = (w - 1) * 7 := by
    omega
  by_cases hA : jan1ord y ≤ isoweek1monday y
  · -- week 1 starts on or after Jan 1: the ordinal lies in Gregorian year y
    have hlow : daysBeforeYear y < isoweek1monday y + (w - 1) * 7 := by
      unfold jan1ord at hA
      omega
    have hyear : yearOfOrdinal (isoweek1monday y + (w - 1) * 7) = y :=
      yearOfOrdinal_eq hlow hupper
    unfold isocalendar
    rw [hyear, if_neg (by omega), hsub, hd7, hm7]
    rcases hw with hw52 | ⟨hw53, hlong⟩
    · rw [if_neg (by omega)]
      simp only [Prod.mk.injEq, true_and, and_true]
      omega
    · rw [if_neg (by omega)]
      simp only [Prod.mk.injEq, true_and, and_true]
      omega
  · -- week 1 starts in December of y - 1
    push_neg at hA
    have hy2' : 2 ≤ y := by
      rcases Nat.lt_or_ge y 2 with h1 | h2
      · have hy1' : y = 1 := by omega
        rw [hy1'] at hA
        exact absurd hA (by decide)
      · exact h2
    by_cases hwone : w = 1
    · -- the ordinal is the Monday of week 1, which falls in Gregorian year y - 1
      subst hwone
      have hyp : 1 ≤ y - 1 := by omega
      have hbp := isoweek1monday_bounds (y - 1) hyp
      have hsp := isoweek1monday_succ (y - 1) hyp
      have hyy : y - 1 + 1 = y := by omega
      rw [hyy] at hsp
      have hdsp := daysBeforeYear_succ (y - 1) hyp
      rw [hyy] at hdsp
      have hdiy : 365 ≤ daysInYear (y - 1) := by
        unfold daysInYear
        split <;> omega
      have htriv : isoweek1monday y + (1 - 1) * 7 = isoweek1monday y := by omega
      rw [htriv]
      have hlow : daysBeforeYear (y - 1) < isoweek1monday y := by
        unfold jan1ord at hb
        omega
      have hupp : isoweek1monday y ≤ daysBeforeYear (y - 1 + 1) := by
        rw [hyy]
        unfold jan1ord at hA
        omega
      have hyear : yearOfOrdinal (isoweek1monday y) = y - 1 :=
        yearOfOrdinal_eq hlow hupp
      have hW : isoweek1monday y = isoweek1monday (y - 1) + 371 ∨
          isoweek1monday y = isoweek1monday (y - 1) + 364 := by
        rcases Classical.em (isoLongYear (y - 1)) with hL | hL
        · exact Or.inl (hsp.1 hL)
        · exact Or.inr (hsp.2 hL)
      unfold isocalendar
      rw [hyear, hyy]
      rcases hW with h371 | h364
      · have hs2 : isoweek1monday y - isoweek1monday (y - 1) = 371 := by omega
        rw [if_neg (by omega), hs2, if_pos ⟨by norm_num, le_refl _⟩]
      · have hs2 : isoweek1monday y - isoweek1monday (y - 1) = 364 := by omega
        rw [if_neg (by omega), hs2, if_pos ⟨by norm_num, le_refl _⟩]
    · -- w ≥ 2: the ordinal is at least Jan 5 of year y
      have hw2 : 2 ≤ w := by omega
      have hlow : daysBeforeYear y < isoweek1monday y + (w - 1) * 7 := by
        unfold jan1ord at hb hA
        omega
      have hyear : yearOfOrdinal (isoweek1monday y + (w - 1) * 7) = y :=
        yearOfOrdinal_eq hlow hupper
      unfold isocalendar
      rw [hyear, if_neg (by omega), hsub, hd7, hm7]
      rcases hw with hw52 | ⟨hw53, hlong⟩
      · rw [if_neg (by omega)]
        simp only [Prod.mk.injEq, true_and, and_true]
        omega
      · rw [if_neg (by omega)]
        simp only [Prod.mk.injEq, true_and, and_true]
        omega

/-! ## `_iso_week_monday` from `pages/01_Indicador_Uso_General.py`.

```python
def _iso_week_monday(yyyy_ww: str):
    if not yyyy_ww or not isinstance(yyyy_ww, str):
        return pd.NaT
    s = yyyy_ww.strip()
    try:
        year_str, week_str = s.split("-")
        year = int(year_str)
        week = int(week_str)
        dt = datetime.strptime(f"{year}-W{week:02d}-1", "%G-W%V-%u")
        return pd.to_datetime(dt.date())
    except Exception:
        return pd.NaT
```

Strings are `List Char`; `pd.NaT` is `Option.none`; the date is its proleptic
Gregorian ordinal.  `strptime` with `%G-W%V-%u` matches the formatted string
against a pattern requiring exactly four year digits and a two-digit week up
to 53, then calls `date.fromisocalendar`; on the value level this accepts
`1000 ≤ year ≤ 9999` and `0 ≤ week ≤ 53` (`{:02d}` print), after which the
`fromisocalendar` validity check rejects week 0 and a week 53 of a short ISO
year, exactly as CPython raises `ValueError` (week 0 is rejected by CPython
already at the regex; the observable `NaT` outcome is identical). -/

/-- Python `str.strip()`: drop leading and trailing whitespace. -/
def pyStrip (s : List Char) : List Char :=
  ((s.dropWhile Char.isWhitespace).reverse.dropWhile Char.isWhitespace).reverse

/-- Python `str.split(sep)` for a one-character separator: every occurrence
splits, empty parts are kept, `"".split(sep) == [""]`. -/
def pySplitOn (sep : Char) (s : List Char) : List (List Char) :=
  s.foldr
    (fun c acc =>
      match acc with
      | [] => [[c]]
      | h :: t => if c = sep then [] :: h :: t else (c :: h) :: t)
    [[]]

/-- Value of an ASCII decimal digit. -/
def digitVal (c : Char) : Option ℕ :=
  if '0' ≤ c ∧ c ≤ '9' then some (c.toNat - '0'.toNat) else none

/-- A non-empty all-digit run parsed in base 10; `none` otherwise. -/
def parseDigits (cs : List Char) : Option ℕ :=
  match cs with
  | [] => none
  | _ :: _ =>
    cs.foldl
      (fun acc c =>
        match acc, digitVal c with
        | some n, some d => some (10 * n + d)
        | _, _ => none)
      (some 0)

/-- Python `int(str)`: optional surrounding whitespace, optional sign, then a
non-empty digit run (PEP 515 underscore grouping and non-ASCII decimal digits
are not modelled; the week strings handled by the page never contain them). -/
def pyIntOfStr (s : List Char) : Option ℤ :=
  match pyStrip s with
  | '+' :: rest => (parseDigits rest).map (fun n => (n : ℤ))
  | '-' :: rest => (parseDigits rest).map (fun n => -(n : ℤ))
  | rest => (parseDigits rest).map (fun n => (n : ℤ))

/-- A Python value as seen by `_iso_week_monday`: `None`, a string, or any
non-string object (both falsy and truthy non-strings return `pd.NaT`,
either via `not yyyy_ww` or via the `isinstance` check). -/
inductive PyVal where
  | none : PyVal
  | str : List Char → PyVal
  | nonstr : PyVal
deriving DecidableEq

/-- The `strptime`/`fromisocalendar` step on already-parsed integers:
format `f"{year}-W{week:02d}-1"` matches pattern `%G-W%V-%u` iff
`1000 ≤ year ≤ 9999` and `0 ≤ week ≤ 53`; then `fromisocalendar` validates
and produces the ordinal. `Except.error` is the raised `ValueError`. -/
def isoWeekFromInts : Option ℤ → Option ℤ → Except Unit ℕ
  | some year, some week =>
    if 1000 ≤ year ∧ year ≤ 9999 ∧ 0 ≤ week ∧ week ≤ 53 then
      if validIsoWeekDate year.toNat week.toNat 1 then
        Except.ok (fromisocalendarOrd year.toNat week.toNat 1)
      else Except.error ()
    else Except.error ()
  | _, _ => Except.error ()

/-- Body of the `try:` block of `_iso_week_monday` on the stripped string:
unpacking `s.split("-")` into exactly two names, `int` on both parts, then
`strptime`.  Any other shape raises, i.e. returns `Except.error`. -/
def isoWeekMondayBody (s : List Char) : Except Unit ℕ :=
  match pySplitOn '-' s with
  | [a, b] => isoWeekFromInts (pyIntOfStr a) (pyIntOfStr b)
  | _ => Except.error ()

/-- `_iso_week_monday`: `None`, non-strings and the empty (falsy) string give
`pd.NaT`; otherwise the body runs on the stripped string and any exception is
caught into `pd.NaT`. -/
def isoWeekMonday : PyVal → Option ℕ
  | PyVal.none => Option.none
  | PyVal.nonstr => Option.none
  | PyVal.str s =>
    if s = [] then Option.none
    else
      match isoWeekMondayBody (pyStrip s) with
      | Except.ok o => some o
      | Except.error _ => Option.none

theorem isoWeekFromInts_ok {oy ow : Option ℤ} {o : ℕ}
    (h : isoWeekFromInts oy ow = Except.ok o) :
    ∃ y w : ℕ, validIsoWeekDate y w 1 ∧ o = fromisocalendarOrd y w 1 := by
  match oy, ow with
  | some year, some week =>
    simp only [isoWeekFromInts] at h
    by_cases h1 : 1000 ≤ year ∧ year ≤ 9999 ∧ 0 ≤ week ∧ week ≤ 53
    · rw [if_pos h1] at h
      by_cases h2 : validIsoWeekDate year.toNat week.toNat 1
      · rw [if_pos h2] at h
        exact ⟨year.toNat, week.toNat, h2, by cases h; rfl⟩
      · rw [if_neg h2] at h
        cases h
    · rw [if_neg h1] at h
      cases h
  | some year, Option.none => simp [isoWeekFromInts] at h
  | Option.none, _ => simp [isoWeekFromInts] at h

theorem isoWeekMondayBody_ok {s : List Char} {o : ℕ}
    (h : isoWeekMondayBody s = Except.ok o) :
    ∃ y w : ℕ, validIsoWeekDate y w 1 ∧ o = fromisocalendarOrd y w 1 := by
  unfold isoWeekMondayBody at h
  split at h
  · exact isoWeekFromInts_ok h
  · cases h

theorem fromisocalendarOrd_monday {y w : ℕ} (h : validIsoWeekDate y w 1) :
    1 ≤ fromisocalendarOrd y w 1 ∧ fromisocalendarOrd y w 1 % 7 = 1 := by
  obtain ⟨hy1, hy2, hw1, hw, -, -⟩ := h
  have hb := isoweek1monday_bounds y hy1
  unfold fromisocalendarOrd
  constructor
  · omega
  · have : (isoweek1monday y + (w - 1) * 7) % 7 = isoweek1monday y % 7 :=
      Nat.add_mul_mod_self_right _ _ _
    omega

/-- C10: for every input value whatsoever (`None`, non-strings, the empty
string, malformed or out-of-range week strings), `_iso_week_monday` returns
either a valid timestamp (a positive ordinal that is a Monday) or `NaT` —
every exception inside the body is caught, so the function is total and the
loaders' `notna` filter is well defined. -/
theorem c10_iso_week_monday_total (v : PyVal) :
    isoWeekMonday v = Option.none ∨
      ∃ o, isoWeekMonday v = some o ∧ 1 ≤ o ∧ o % 7 = 1 := by
  cases v with
  | none => exact Or.inl rfl
  | nonstr => exact Or.inl rfl
  | str s =>
    by_cases hs : s = []
    · subst hs
      exact Or.inl rfl
    · simp only [isoWeekMonday]
      rw [if_neg hs]
      cases hbody : isoWeekMondayBody (pyStrip s) with
      | error e => exact Or.inl rfl
      | ok o =>
        right
        obtain ⟨y, w, hv, ho⟩ := isoWeekMondayBody_ok hbody
        obtain ⟨h1, h2⟩ := fromisocalendarOrd_monday hv
        exact ⟨o, rfl, by omega, by omega⟩

/-- C5: for every valid ISO (year, week) pair written as a `"YYYY-WW"` string
(four-digit year, as the format prescribes), `_iso_week_monday` parses it to
the Monday (ISO weekday 1) of that ISO week, and taking the ISO calendar of
the returned date gives back the original pair — the round-trip left inverse. -/
theorem c5_iso_week_roundtrip (s a b : List Char) (y w : ℤ)
    (hsplit : pySplitOn '-' (pyStrip s) = [a, b])
    (hya : pyIntOfStr a = some y) (hwb : pyIntOfStr b = some w)
    (hy4 : 1000 ≤ y) (hy9 : y ≤ 9999) (hw1 : 1 ≤ w)
    (hwv : w ≤ 52 ∨ (w = 53 ∧ isoLongYear y.toNat)) :
    isoWeekMonday (PyVal.str s) = some (fromisocalendarOrd y.toNat w.toNat 1) ∧
      fromisocalendarOrd y.toNat w.toNat 1 % 7 = 1 ∧
      isocalendar (fromisocalendarOrd y.toNat w.toNat 1) = (y.toNat, w.toNat, 1) := by
  have hvalid : validIsoWeekDate y.toNat w.toNat 1 := by
    unfold validIsoWeekDate
    refine ⟨by omega, by omega, by omega, ?_, by omega, by omega⟩
    rcases hwv with h | ⟨h53, hlong⟩
    · exact Or.inl (by omega)
    · exact Or.inr ⟨by omega, hlong⟩
  have hsne : s ≠ [] := by
    intro he
    subst he
    simp [pyStrip, pySplitOn] at hsplit
  have hbody : isoWeekMondayBody (pyStrip s)
      = Except.ok (fromisocalendarOrd y.toNat w.toNat 1) := by
    unfold isoWeekMondayBody
    rw [hsplit]
    show isoWeekFromInts (pyIntOfStr a) (pyIntOfStr b) = _
    rw [hya, hwb]
    simp only [isoWeekFromInts]
    rw [if_pos ⟨by omega, by omega, by omega, by omega⟩, if_pos hvalid]
  refine ⟨?_, (fromisocalendarOrd_monday hvalid).2, ?_⟩
  · simp only [isoWeekMonday]
    rw [if_neg hsne, hbody]
  · refine isocalendar_fromisocalendarOrd y.toNat w.toNat (by omega) (by omega)
      (by omega) ?_
    rcases hwv with h | ⟨h53, hlong⟩
    · exact Or.inl (by omega)
    · exact Or.inr ⟨by omega, hlong⟩

theorem c5_iso_week_roundtrip_witness :
    isoWeekMonday (PyVal.str ['2', '0', '2', '5', '-', '3', '7'])
        = some (fromisocalendarOrd (2025 : ℤ).toNat (37 : ℤ).toNat 1) ∧
      fromisocalendarOrd (2025 : ℤ).toNat (37 : ℤ).toNat 1 % 7 = 1 ∧
      isocalendar (fromisocalendarOrd (2025 : ℤ).toNat (37 : ℤ).toNat 1)
        = ((2025 : ℤ).toNat, (37 : ℤ).toNat, 1) :=
  c5_iso_week_roundtrip ['2', '0', '2', '5', '-', '3', '7'] ['2', '0', '2', '5']
    ['3', '7'] 2025 37 (by decide) (by decide) (by decide) (by decide) (by decide)
    (by decide) (by decide)

/-! ## Weekly adoption loaders, `pages/01_Indicador_Uso_General.py`.

`load_uso_semanal_comprador` / `load_uso_semanal_proveedor` pull the
`V_USO_SEMANAL_*` views, coerce the week column with `.astype(str).str.strip()`,
force the numeric columns through `pd.to_numeric(...).fillna(0)`
(`_ensure_numeric_cols`), compute `semana_inicio` via `_iso_week_monday`,
drop rows where it is `NaT` (`notna`), filter `d0 ≤ semana_inicio ≤ d1`, and
add `pct_connexa_sem = total_oc_cnx / total_oc_sgm if total_oc_sgm else 0.0`.
A row is one record of the view; `NULL`s in numeric columns are `Option.none`
(made `0` by the `fillna`), the week column is the post-`astype(str)` string. -/

structure UsoCompRow where
  c_comprador : Option ℤ
  semana : List Char
  total_oc_cnx : Option ℚ
  total_oc_sgm : Option ℚ
  total_prv_cnx : Option ℚ
  total_prv_sgm : Option ℚ
  total_bultos_cnx : Option ℚ
  total_bultos_sgm : Option ℚ
deriving DecidableEq

structure UsoCompOut where
  c_comprador : Option ℤ
  semana_yyyyww : List Char
  semana_inicio : ℕ
  total_oc_cnx : ℚ
  total_oc_sgm : ℚ
  total_prv_cnx : ℚ
  total_prv_sgm : ℚ
  total_bultos_cnx : ℚ
  total_bultos_sgm : ℚ
  pct_connexa_sem : ℚ
deriving DecidableEq

/-- `load_uso_semanal_comprador`, per row: the week string is stripped, parsed
with `_iso_week_monday`; `NaT` rows and rows outside `[d0, d1]` are dropped;
`pct_connexa_sem` is `cnx / sgm` when `total_oc_sgm` is truthy (non-zero) and
`0.0` otherwise. -/
def loadUsoSemanalComprador (rows : List UsoCompRow) (d0 d1 : ℕ) :
    List UsoCompOut :=
  rows.filterMap fun (r : UsoCompRow) =>
    match isoWeekMonday (PyVal.str (pyStrip r.semana)) with
    | Option.none => Option.none
    | some o =>
      if d0 ≤ o ∧ o ≤ d1 then
        some
          ({ c_comprador := r.c_comprador,
             semana_yyyyww := pyStrip r.semana,
             semana_inicio := o,
             total_oc_cnx := r.total_oc_cnx.getD 0,
             total_oc_sgm := r.total_oc_sgm.getD 0,
             total_prv_cnx := r.total_prv_cnx.getD 0,
             total_prv_sgm := r.total_prv_sgm.getD 0,
             total_bultos_cnx := r.total_bultos_cnx.getD 0,
             total_bultos_sgm := r.total_bultos_sgm.getD 0,
             pct_connexa_sem :=
               if r.total_oc_sgm.getD 0 ≠ 0 then
                 r.total_oc_cnx.getD 0 / r.total_oc_sgm.getD 0
               else 0 } : UsoCompOut)
      else Option.none

structure UsoProvRow where
  c_proveedor : Option ℤ
  semana : List Char
  total_pedidos_cnx : Option ℚ
  total_oc_cnx : Option ℚ
  total_bultos_cnx : Option ℚ
  total_oc_sgm : Option ℚ
  total_bultos_sgm : Option ℚ
deriving DecidableEq

structure UsoProvOut where
  c_proveedor : Option ℤ
  semana_yyyyww : List Char
  semana_inicio : ℕ
  total_pedidos_cnx : ℚ
  total_oc_cnx : ℚ
  total_bultos_cnx : ℚ
  total_oc_sgm : ℚ
  total_bultos_sgm : ℚ
  pct_connexa_sem : ℚ
deriving DecidableEq

/-- `load_uso_semanal_proveedor`: same pipeline as the comprador loader over
the supplier view's columns. -/
def loadUsoSemanalProveedor (rows : List UsoProvRow) (d0 d1 : ℕ) :
    List UsoProvOut :=
  rows.filterMap fun (r : UsoProvRow) =>
    match isoWeekMonday (PyVal.str (pyStrip r.semana)) with
    | Option.none => Option.none
    | some o =>
      if d0 ≤ o ∧ o ≤ d1 then
        some
          ({ c_proveedor := r.c_proveedor,
             semana_yyyyww := pyStrip r.semana,
             semana_inicio := o,
             total_pedidos_cnx := r.total_pedidos_cnx.getD 0,
             total_oc_cnx := r.total_oc_cnx.getD 0,
             total_bultos_cnx := r.total_bultos_cnx.getD 0,
             total_oc_sgm := r.total_oc_sgm.getD 0,
             total_bultos_sgm := r.total_bultos_sgm.getD 0,
             pct_connexa_sem :=
               if r.total_oc_sgm.getD 0 ≠ 0 then
                 r.total_oc_cnx.getD 0 / r.total_oc_sgm.getD 0
               else 0 } : UsoProvOut)
      else Option.none

/-- Rows whose week string fails the ISO parse — those the loaders drop. -/
def droppedCompRowCount (rows : List UsoCompRow) : ℕ :=
  (rows.filter fun r =>
    (isoWeekMonday (PyVal.str (pyStrip r.semana))).isNone).length

/-! ## SQL models, `modules/queries/sgm_bridge.py` / `uso_general.py`.

The SQL bodies are modelled as pure functions over lists of typed rows.
SQL `date` values are (year, month, day) triples ordered lexicographically;
`f < DATEADD(day, 1, :hasta)` on `date`-typed operands is exactly `f ≤ hasta`.
Comparisons against `NULL` are UNKNOWN and exclude the row, which the models
make explicit.  `TRY_CONVERT(date, F_ALTA_SIST)` is the row's `Option SqlDate`;
the raw-column guards (`F_ALTA_SIST >= '2025-06-01'`, added to avoid mass
conversion) are applied to the converted date, which agrees on every row the
date filters can keep.  `GROUP BY` / `ORDER BY` output order is not modelled
(the claims are about which rows appear and their values). -/

structure SqlDate where
  y : ℤ
  m : ℤ
  d : ℤ
deriving DecidableEq

/-- Lexicographic order on dates. -/
def SqlDate.le (a b : SqlDate) : Prop :=
  a.y < b.y ∨ (a.y = b.y ∧ (a.m < b.m ∨ (a.m = b.m ∧ a.d ≤ b.d)))

instance (a b : SqlDate) : Decidable (SqlDate.le a b) := by
  unfold SqlDate.le; infer_instance

/-- `f_alta_date >= :desde AND f_alta_date < DATEADD(day, 1, :hasta)`;
`NULL` (failed `TRY_CONVERT`) compares UNKNOWN, excluding the row. -/
def inRange (desde hasta : SqlDate) : Option SqlDate → Prop
  | some f => SqlDate.le desde f ∧ SqlDate.le f hasta
  | Option.none => False

instance (desde hasta : SqlDate) (f : Option SqlDate) :
    Decidable (inRange desde hasta f) := by
  cases f <;> (unfold inRange; infer_instance)

/-- One-sided raw-timestamp guard `F_ALTA_SIST >= <literal>`. -/
def afterGuard (g : SqlDate) : Option SqlDate → Prop
  | some f => SqlDate.le g f
  | Option.none => False

instance (g : SqlDate) (f : Option SqlDate) : Decidable (afterGuard g f) := by
  cases f <;> (unfold afterGuard; infer_instance)

/-- `DATEFROMPARTS(YEAR(f), MONTH(f), 1)` as a (year, month) key; rows reaching
a `GROUP BY` have passed a date filter, so the `Option.none` arm is inert. -/
def monthOf : Option SqlDate → ℤ × ℤ
  | some f => (f.y, f.m)
  | Option.none => (0, 0)

/-- Decimal digits of an integer, as T-SQL `CAST(v AS varchar(32))` prints it. -/
def intStr (v : ℤ) : List Char :=
  if v < 0 then '-' :: Nat.toDigits 10 v.natAbs else Nat.toDigits 10 v.toNat

/-- `CAST(col AS varchar(32))`: `NULL` stays `NULL`, rendered `[]` here because
its only consumer is `CONCAT`, which treats `NULL` as the empty string. -/
def castVarchar : Option ℤ → List Char
  | some v => intStr v
  | Option.none => []

/-- `CONCAT(CAST(U_PREFIJO_OC AS varchar(32)), '-', CAST(U_SUFIJO_OC AS
varchar(32)))` — the `oc_sgm` match key. -/
def ocKey (p s : Option ℤ) : List Char := castVarchar p ++ '-' :: castVarchar s

/-- `COUNT(DISTINCT expr)` over non-`NULL` string keys. -/
def distinctCount (l : List (List Char)) : ℕ := l.dedup.length

/-- `COUNT(DISTINCT col)` over a nullable column: `NULL`s are not counted. -/
def distinctCountOpt (l : List (Option ℤ)) : ℕ := (l.filterMap id).dedup.length

/-- A row of `T874_OC_PRECARGA_KIKKER_HIST` as the `sgm_bridge` queries read
it: robust date, CI order number, quantity, and the two SGM link fields. -/
structure KikkerRow where
  f_alta : Option SqlDate
  c_compra_kikker : Option ℤ
  q_bultos : Option ℚ
  u_prefijo : Option ℤ
  u_sufijo : Option ℤ
deriving DecidableEq

structure KikkerVsOcOut where
  mes : ℤ × ℤ
  kikker_distintos : ℕ
  oc_sgm_distintas : ℕ
  total_bultos : ℚ
deriving DecidableEq

/-- `SQL_SGM_KIKKER_VS_OC_MENSUAL`: per month, distinct CI order count,
distinct `oc_sgm` key count and summed `COALESCE(Q_BULTOS_KILOS_DIARCO, 0)`.
Note the `src` CTE builds `oc_sgm` for **every** row — there is no
prefix/suffix exclusion in this query. -/
def sqlKikkerVsOcMensual (rows : List KikkerRow) (desde hasta : SqlDate) :
    List KikkerVsOcOut :=
  let base := (rows.filter fun r => decide (afterGuard ⟨2025, 6, 1⟩ r.f_alta)).filter
    fun r => decide (inRange desde hasta r.f_alta)
  ((base.map fun r => monthOf r.f_alta).dedup).map fun mes =>
    let g := base.filter fun r => decide (monthOf r.f_alta = mes)
    { mes := mes,
      kikker_distintos := distinctCountOpt (g.map fun r => r.c_compra_kikker),
      oc_sgm_distintas := distinctCount (g.map fun r => ocKey r.u_prefijo r.u_sufijo),
      total_bultos := (g.map fun r => r.q_bultos.getD 0).sum }

/-- The per-source-key distinct destination-key count that
`SQL_SGM_KIKKER_DUP` groups and filters on. -/
def kikkerDistinctOcCount (rows : List KikkerRow) (desde hasta : SqlDate)
    (k : Option ℤ) : ℕ :=
  distinctCount
    (((rows.filter fun r => decide (inRange desde hasta r.f_alta)).filter
        fun r => decide (r.c_compra_kikker = k)).map
      fun r => ocKey r.u_prefijo r.u_sufijo)

/-- `SQL_SGM_KIKKER_DUP`: `GROUP BY C_COMPRA_KIKKER` (SQL groups `NULL`s
together, hence the `Option ℤ` key) `HAVING COUNT(DISTINCT oc_sgm) > 1`,
reporting the count.  `ORDER BY` is not modelled. -/
def sqlKikkerDup (rows : List KikkerRow) (desde hasta : SqlDate) :
    List (Option ℤ × ℕ) :=
  let w := rows.filter fun r => decide (inRange desde hasta r.f_alta)
  ((w.map fun r => r.c_compra_kikker).dedup).filterMap fun k =>
    if 1 < kikkerDistinctOcCount rows desde hasta k then
      some (k, kikkerDistinctOcCount rows desde hasta k)
    else Option.none

/-- A row of `T874` or `T080_OC_CABE` as `SQL_SGM_I3_MENSUAL` reads it. -/
structure OcRow where
  f_alta : Option SqlDate
  u_prefijo : Option ℤ
  u_sufijo : Option ℤ
deriving DecidableEq

structure I3Out where
  mes : ℤ × ℤ
  oc_totales_sgm : ℕ
  oc_desde_connexa : ℕ
  proporcion_ci : Option ℚ
deriving DecidableEq

/-- SQL `=` on two nullable integer columns: `NULL` never matches. -/
def sqlEqOpt : Option ℤ → Option ℤ → Prop
  | some x, some y => x = y
  | _, _ => False

instance : (a b : Option ℤ) → Decidable (sqlEqOpt a b)
  | some x, some y => decidable_of_iff (x = y) (by simp [sqlEqOpt])
  | some _, Option.none => isFalse (by simp [sqlEqOpt])
  | Option.none, _ => isFalse (by simp [sqlEqOpt])

/-- `ISNULL(U_PREFIJO_OC, 0) <> 0 AND ISNULL(U_SUFIJO_OC, 0) <> 0`. -/
def nonzeroLink (r : OcRow) : Prop :=
  r.u_prefijo.getD 0 ≠ 0 ∧ r.u_sufijo.getD 0 ≠ 0

instance (r : OcRow) : Decidable (nonzeroLink r) := by
  unfold nonzeroLink; infer_instance

/-- `SQL_SGM_I3_MENSUAL`: for each month of `T080_OC_CABE` activity in range
(only rows with non-zero, non-`NULL` prefix and suffix), the distinct SGM
order-key count, the distinct count of those keys that also appear in `T874`
in range (`LEFT JOIN` + `COUNT(DISTINCT CASE WHEN t.oc_sgm IS NOT NULL THEN
c.oc_sgm END)`: a cabecera key is counted when at least one `T874` row joins),
and `proporcion_ci = oc_desde_connexa / NULLIF(oc_totales_sgm, 0)` — `NULL`,
not zero, on a zero denominator. -/
def sqlSgmI3Mensual (t874 cabe : List OcRow) (desde hasta : SqlDate) :
    List I3Out :=
  let t := (t874.filter fun r => decide (nonzeroLink r)).filter
    fun r => decide (inRange desde hasta r.f_alta)
  let c := ((cabe.filter fun r => decide (afterGuard ⟨2025, 8, 1⟩ r.f_alta)).filter
      fun r => decide (nonzeroLink r)).filter
    fun r => decide (inRange desde hasta r.f_alta)
  ((c.map fun r => monthOf r.f_alta).dedup).map fun mes =>
    let g := c.filter fun r => decide (monthOf r.f_alta = mes)
    let tot := distinctCount (g.map fun r => ocKey r.u_prefijo r.u_sufijo)
    let des := distinctCount
      ((g.filter fun cr => t.any fun tr =>
          decide (sqlEqOpt tr.u_prefijo cr.u_prefijo ∧ sqlEqOpt tr.u_sufijo cr.u_sufijo)).map
        fun r => ocKey r.u_prefijo r.u_sufijo)
    { mes := mes,
      oc_totales_sgm := tot,
      oc_desde_connexa := des,
      proporcion_ci := if tot = 0 then Option.none else some ((des : ℚ) / (tot : ℚ)) }

/-- The DataFrame returned by `get_proporcion_ci_vs_sgm_mensual` after the
pandas post-processing: the count columns kept as integers, and
`proporcion_ci` forced through
`pd.to_numeric(df["proporcion_ci"], errors="coerce").fillna(0.0)`. -/
structure PropOut where
  mes : ℤ × ℤ
  oc_totales_sgm : ℕ
  oc_desde_connexa : ℕ
  proporcion_ci : ℚ
deriving DecidableEq

/-- The pandas tail of `get_proporcion_ci_vs_sgm_mensual`: every `NULL`
`proporcion_ci` becomes `0.0` via `fillna(0.0)`. -/
def getProporcionPost (df : List I3Out) : List PropOut :=
  df.map fun (r : I3Out) =>
    { mes := r.mes,
      oc_totales_sgm := r.oc_totales_sgm,
      oc_desde_connexa := r.oc_desde_connexa,
      proporcion_ci := r.proporcion_ci.getD 0 }

/-- `get_proporcion_ci_vs_sgm_mensual` end to end: run `SQL_SGM_I3_MENSUAL`,
then the pandas post-processing. -/
def getProporcionCiVsSgmMensual (t874 cabe : List OcRow) (desde hasta : SqlDate) :
    List PropOut :=
  getProporcionPost (sqlSgmI3Mensual t874 cabe desde hasta)

/-! ## `get_embudo_connexa_sgm_mensual`, `modules/queries/uso_general.py`.

The function returns an empty DataFrame when either engine is `None`;
otherwise it outer-merges the monthly PostgreSQL series (renamed
`pedidos_connexa` / `bultos_connexa`) with the monthly SQL Server series
(renamed `nips_sgm` / `oc_sgm` / `bultos_sgm`) on `mes`, then runs
`fillna(0.0)` over `pedidos_connexa, oc_sgm, bultos_connexa, bultos_sgm`
(but not `nips_sgm`), and adds
`tasa_conv_pedidos_oc = oc_sgm / pedidos_connexa * 100 if pedidos_connexa > 0
else 0.0`.  Each query's month keys are unique (both are `GROUP BY` month),
so the outer merge is modelled by `find?` per month key; `sort_values` order
is not modelled. -/

structure EmbudoPgRow where
  mes : ℤ × ℤ
  pedidos_connexa : ℚ
  bultos_connexa : ℚ
deriving DecidableEq

structure EmbudoSgmRow where
  mes : ℤ × ℤ
  nips_sgm : ℚ
  oc_sgm : ℚ
  bultos_sgm : ℚ
deriving DecidableEq

structure EmbudoOut where
  mes : ℤ × ℤ
  pedidos_connexa : ℚ
  nips_sgm : Option ℚ
  oc_sgm : ℚ
  bultos_connexa : ℚ
  bultos_sgm : ℚ
  tasa_conv_pedidos_oc : ℚ
deriving DecidableEq

/-- `get_embudo_connexa_sgm_mensual`; `pgOk` / `sgmOk` say whether the two
engines are available (`None` engines short-circuit to an empty DataFrame). -/
def getEmbudoConnexaSgmMensual (pgOk sgmOk : Bool) (dfPg : List EmbudoPgRow)
    (dfSgm : List EmbudoSgmRow) : List EmbudoOut :=
  if pgOk = false ∨ sgmOk = false then []
  else
    (((dfPg.map fun r => r.mes) ++ (dfSgm.map fun r => r.mes)).dedup).map fun mes =>
      let pg := dfPg.find? fun r => decide (r.mes = mes)
      let sg := dfSgm.find? fun r => decide (r.mes = mes)
      let pedidos := (pg.map fun r => r.pedidos_connexa).getD 0
      let oc := (sg.map fun r => r.oc_sgm).getD 0
      { mes := mes,
        pedidos_connexa := pedidos,
        nips_sgm := sg.map fun r => r.nips_sgm,
        oc_sgm := oc,
        bultos_connexa := (pg.map fun r => r.bultos_connexa).getD 0,
        bultos_sgm := (sg.map fun r => r.bultos_sgm).getD 0,
        tasa_conv_pedidos_oc := if 0 < pedidos then oc / pedidos * 100 else 0 }

/-! ## Stock classifier, `pages/07_Stock_por_Sucursal.py`.

One row of the fallback dataset (`SQL_FALLBACK_STOCK_CARTERA_30D`), with the
fields the classifier reads.  `stock` / `stock_reserva` are `COALESCE`d to 0
in the `stk` CTE, `venta_promedio_diaria_30d` is `COALESCE(vt..., 0)` (the
`vtas` join misses when there were no sales), `stock_minimo` is `NULL` when
the `vig` join misses, and `dias_stock` / `q_dias_stock` come straight from
`src.base_stock_sucursal`.  `preparar_dataset` then re-applies
`fillna(0)` to the numeric columns, keeps `dias_stock` nullable
(`pd.to_numeric(..., errors="coerce")`), and computes the boolean flags;
the page adds the tolerance-parameterised over-stock flag. -/

structure StockSrcRow where
  stock : Option ℚ
  stock_reserva : Option ℚ
  dias_stock : Option ℚ
  q_dias_stock : Option ℚ
  precio_costo : Option ℚ
  venta_promedio_diaria_30d : Option ℚ
  stock_minimo : Option ℚ
deriving DecidableEq

/-- The `dias_stock` output column of `SQL_FALLBACK_STOCK_CARTERA_30D`:
`COALESCE(NULLIF(s.dias_stock, 0), CASE WHEN COALESCE(vt.venta, 0) > 0 THEN
(s.stock + s.stock_reserva) / vt.venta ELSE NULL END)` — the upstream value
wins whenever it is non-zero and non-`NULL`; otherwise recompute from the
30-day consumption, leaving `NULL` when that consumption is not positive. -/
def fallbackDiasStock (r : StockSrcRow) : Option ℚ :=
  match (match r.dias_stock with
         | some v => if v = 0 then Option.none else some v
         | Option.none => Option.none : Option ℚ) with
  | some v => some v
  | Option.none =>
    if 0 < r.venta_promedio_diaria_30d.getD 0 then
      some ((r.stock.getD 0 + r.stock_reserva.getD 0) / r.venta_promedio_diaria_30d.getD 0)
    else Option.none

structure StockOut where
  stock_total : ℚ
  venta_promedio_diaria_30d : ℚ
  dias_stock : Option ℚ
  q_dias_stock : Option ℚ
  stock_minimo : ℚ
  valor_stock_costo : ℚ
  bajo_stock_minimo : Bool
  sin_venta_30d_con_stock : Bool
  falta_cobertura : Bool
  dias_max_objetivo : Option ℚ
  sobre_stock_param : Bool
deriving DecidableEq

/-- `preparar_dataset` plus the page's dynamic over-stock block, per row:
`stock_total = stock + stock_reserva`; `bajo_stock_minimo = stock_total <
stock_minimo`; `sin_venta_30d_con_stock = venta == 0 and stock_total > 0`;
`falta_cobertura` / `sobre_stock_param` compare `dias_stock` against the
target only where the parameter is known (`np.where(notna, cmp, False)`,
with `NaN` comparisons false), `dias_max_objetivo = q_dias_stock +
tolerancia_dias` where known. -/
def prepararStockRow (tolerancia_dias : ℚ) (r : StockSrcRow) : StockOut :=
  let total := r.stock.getD 0 + r.stock_reserva.getD 0
  let venta := r.venta_promedio_diaria_30d.getD 0
  let dias := fallbackDiasStock r
  let diasMax := r.q_dias_stock.map fun q => q + tolerancia_dias
  { stock_total := total,
    venta_promedio_diaria_30d := venta,
    dias_stock := dias,
    q_dias_stock := r.q_dias_stock,
    stock_minimo := r.stock_minimo.getD 0,
    valor_stock_costo := total * r.precio_costo.getD 0,
    bajo_stock_minimo := decide (total < r.stock_minimo.getD 0),
    sin_venta_30d_con_stock := decide (venta = 0 ∧ 0 < total),
    falta_cobertura :=
      match r.q_dias_stock with
      | some q =>
        match dias with
        | some ds => decide (ds < q)
        | Option.none => false
      | Option.none => false,
    dias_max_objetivo := diasMax,
    sobre_stock_param :=
      match diasMax with
      | some m =>
        match dias with
        | some ds => decide (m < ds)
        | Option.none => false
      | Option.none => false }

-- ### Counting helpers

theorem distinctCount_eq_card (l : List (List Char)) :
    distinctCount l = l.toFinset.card := rfl

theorem distinctCount_le_of_subset {l₁ l₂ : List (List Char)} (h : l₁ ⊆ l₂) :
    distinctCount l₁ ≤ distinctCount l₂ := by
  rw [distinctCount_eq_card, distinctCount_eq_card]
  refine Finset.card_le_card ?_
  intro x hx
  rw [List.mem_toFinset] at hx ⊢
  exact h hx

theorem distinctCount_pos {l : List (List Char)} (h : l ≠ []) :
    1 ≤ distinctCount l := by
  unfold distinctCount
  have hne : l.dedup ≠ [] := fun he => h ((List.dedup_eq_nil l).mp he)
  exact Nat.pos_of_ne_zero fun h0 => hne (List.eq_nil_of_length_eq_zero h0)

theorem sqlSgmI3Mensual_mem {t874 cabe : List OcRow} {desde hasta : SqlDate}
    {q : I3Out} (hq : q ∈ sqlSgmI3Mensual t874 cabe desde hasta) :
    1 ≤ q.oc_totales_sgm ∧ q.oc_desde_connexa ≤ q.oc_totales_sgm ∧
      q.proporcion_ci = some ((q.oc_desde_connexa : ℚ) / (q.oc_totales_sgm : ℚ)) := by
  simp only [sqlSgmI3Mensual] at hq
  obtain ⟨mes, hmes, rfl⟩ := List.mem_map.mp hq
  rw [List.mem_dedup] at hmes
  obtain ⟨rc, hrc, hrm⟩ := List.mem_map.mp hmes
  have hg : rc ∈ (((cabe.filter fun r => decide (afterGuard ⟨2025, 8, 1⟩ r.f_alta)).filter
      fun r => decide (nonzeroLink r)).filter
        fun r => decide (inRange desde hasta r.f_alta)).filter
          fun r => decide (monthOf r.f_alta = mes) := by
    rw [List.mem_filter]
    exact ⟨hrc, by simp [hrm]⟩
  have hne : ((((cabe.filter fun r => decide (afterGuard ⟨2025, 8, 1⟩ r.f_alta)).filter
      fun r => decide (nonzeroLink r)).filter
        fun r => decide (inRange desde hasta r.f_alta)).filter
          fun r => decide (monthOf r.f_alta = mes)).map
        (fun r => ocKey r.u_prefijo r.u_sufijo) ≠ [] := by
    intro he
    rw [List.map_eq_nil_iff] at he
    rw [he] at hg
    cases hg
  have htot := distinctCount_pos hne
  refine ⟨htot, ?_, ?_⟩
  · refine distinctCount_le_of_subset ?_
    intro x hx
    obtain ⟨a, ha, rfl⟩ := List.mem_map.mp hx
    exact List.mem_map_of_mem _ (List.mem_of_mem_filter ha)
  · rw [if_neg (by omega)]

/-- C1 counterexample: the pandas tail of `get_proporcion_ci_vs_sgm_mensual`
coerces a `NULL` adoption ratio to `0.0` (`fillna(0.0)`), so an undefined
ratio in the query result is **not** preserved in the returned DataFrame. -/
theorem c1_null_ratio_coerced :
    getProporcionPost [⟨(2025, 9), 0, 0, Option.none⟩]
      = [⟨(2025, 9), 0, 0, 0⟩] := rfl

/-- C1 (amended): the SQL itself computes
`proporcion_ci = oc_desde_connexa / NULLIF(oc_totales_sgm, 0)` — `NULL`, not
zero, on a zero denominator — and every emitted monthly bucket in fact has
`oc_totales_sgm ≥ 1`; but the Python wrapper then applies `fillna(0.0)`,
so a `NULL` ratio row is delivered to the caller with `proporcion_ci = 0.0`
rather than undefined. -/
theorem c1_amended (t874 cabe : List OcRow) (desde hasta : SqlDate)
    (df : List I3Out) (r : I3Out) :
    (∀ q ∈ sqlSgmI3Mensual t874 cabe desde hasta,
        1 ≤ q.oc_totales_sgm ∧
          q.proporcion_ci = some ((q.oc_desde_connexa : ℚ) / (q.oc_totales_sgm : ℚ))) ∧
      (r ∈ df →
        ({ mes := r.mes,
           oc_totales_sgm := r.oc_totales_sgm,
           oc_desde_connexa := r.oc_desde_connexa,
           proporcion_ci := r.proporcion_ci.getD 0 } : PropOut) ∈ getProporcionPost df) := by
  constructor
  · intro q hq
    obtain ⟨h1, -, h3⟩ := sqlSgmI3Mensual_mem hq
    exact ⟨h1, h3⟩
  · intro hr
    exact List.mem_map_of_mem _ hr

theorem c1_amended_witness :
    (∀ q ∈ sqlSgmI3Mensual [] [⟨some ⟨2025, 9, 10⟩, some 4, some 9⟩]
        ⟨2025, 9, 1⟩ ⟨2025, 9, 30⟩,
        1 ≤ q.oc_totales_sgm ∧
          q.proporcion_ci = some ((q.oc_desde_connexa : ℚ) / (q.oc_totales_sgm : ℚ))) ∧
      ((⟨(2025, 9), 3, 0, Option.none⟩ : I3Out) ∈
          [(⟨(2025, 9), 3, 0, Option.none⟩ : I3Out)] →
        ({ mes := (2025, 9),
           oc_totales_sgm := 3,
           oc_desde_connexa := 0,
           proporcion_ci := (Option.none : Option ℚ).getD 0 } : PropOut) ∈
          getProporcionPost [⟨(2025, 9), 3, 0, Option.none⟩]) :=
  c1_amended [] [⟨some ⟨2025, 9, 10⟩, some 4, some 9⟩] ⟨2025, 9, 1⟩ ⟨2025, 9, 30⟩
    [⟨(2025, 9), 3, 0, Option.none⟩] ⟨(2025, 9), 3, 0, Option.none⟩

/-- C2 counterexample: `SQL_SGM_KIKKER_VS_OC_MENSUAL` and `SQL_SGM_KIKKER_DUP`
build the match key for **every** record — a record whose prefix and suffix
are both zero contributes the key `"0-0"` to the distinct-key counts, and a
source order with one real destination order plus one unlinked (0, 0) row is
reported as duplicated. -/
theorem c2_zero_key_counted :
    (sqlKikkerVsOcMensual
        [⟨some ⟨2025, 9, 10⟩, some 77, some 5, some 0, some 0⟩]
        ⟨2025, 9, 1⟩ ⟨2025, 9, 30⟩).map
        (fun o => (o.mes, o.kikker_distintos, o.oc_sgm_distintas))
      = [((2025, 9), 1, 1)] ∧
    ocKey (some 0) (some 0) = ['0', '-', '0'] ∧
    sqlKikkerDup
        [⟨some ⟨2025, 9, 10⟩, some 9, some 1, some 0, some 0⟩,
         ⟨some ⟨2025, 9, 11⟩, some 9, some 1, some 1, some 2⟩]
        ⟨2025, 9, 1⟩ ⟨2025, 9, 30⟩
      = [(some 9, 2)] := by decide

/-- C2 (amended): `SQL_SGM_I3_MENSUAL` does exclude records with a zero or
`NULL` prefix or suffix from key construction on **both** sides (they change
nothing in its output), but the monthly dual query and the duplicate
diagnostic build keys unconditionally, so zero pairs are counted there under
`"0-0"` (see the counterexample). -/
theorem c2_amended (t874 cabe : List OcRow) (desde hasta : SqlDate) (r : OcRow)
    (h : r.u_prefijo.getD 0 = 0 ∨ r.u_sufijo.getD 0 = 0) :
    sqlSgmI3Mensual (r :: t874) cabe desde hasta
        = sqlSgmI3Mensual t874 cabe desde hasta ∧
      sqlSgmI3Mensual t874 (r :: cabe) desde hasta
        = sqlSgmI3Mensual t874 cabe desde hasta := by
  have hnz : ¬nonzeroLink r := by
    rintro ⟨h1, h2⟩
    rcases h with h | h
    · exact h1 h
    · exact h2 h
  constructor
  · simp [sqlSgmI3Mensual, List.filter_cons, decide_eq_false hnz]
  · by_cases hg : afterGuard ⟨2025, 8, 1⟩ r.f_alta
    · simp [sqlSgmI3Mensual, List.filter_cons, hg, decide_eq_false hnz]
    · simp [sqlSgmI3Mensual, List.filter_cons, hg]

theorem c2_amended_witness :
    sqlSgmI3Mensual
          [⟨some ⟨2025, 9, 10⟩, some 0, some 3⟩,
           ⟨some ⟨2025, 9, 10⟩, some 4, some 9⟩]
          [⟨some ⟨2025, 9, 12⟩, some 4, some 9⟩] ⟨2025, 9, 1⟩ ⟨2025, 9, 30⟩
        = sqlSgmI3Mensual [⟨some ⟨2025, 9, 10⟩, some 4, some 9⟩]
          [⟨some ⟨2025, 9, 12⟩, some 4, some 9⟩] ⟨2025, 9, 1⟩ ⟨2025, 9, 30⟩ ∧
      sqlSgmI3Mensual [⟨some ⟨2025, 9, 10⟩, some 4, some 9⟩]
          (⟨some ⟨2025, 9, 10⟩, some 0, some 3⟩ ::
            [⟨some ⟨2025, 9, 12⟩, some 4, some 9⟩]) ⟨2025, 9, 1⟩ ⟨2025, 9, 30⟩
        = sqlSgmI3Mensual [⟨some ⟨2025, 9, 10⟩, some 4, some 9⟩]
          [⟨some ⟨2025, 9, 12⟩, some 4, some 9⟩] ⟨2025, 9, 1⟩ ⟨2025, 9, 30⟩ :=
  c2_amended [⟨some ⟨2025, 9, 10⟩, some 4, some 9⟩]
    [⟨some ⟨2025, 9, 12⟩, some 4, some 9⟩] ⟨2025, 9, 1⟩ ⟨2025, 9, 30⟩
    ⟨some ⟨2025, 9, 10⟩, some 0, some 3⟩ (Or.inl (by decide))

/-- C3 counterexample: with both engines available, a month present only in
the PostgreSQL series comes back from `get_embudo_connexa_sgm_mensual` with
`oc_sgm = 0` and `bultos_sgm = 0` — the missing SGM side is silently reported
as zero records (only the un-filled `nips_sgm` stays undefined). -/
theorem c3_missing_side_zero :
    (getEmbudoConnexaSgmMensual true true [⟨(2025, 9), 5, 10⟩] []).map
        (fun t => (t.mes, t.pedidos_connexa, t.nips_sgm, t.oc_sgm, t.bultos_sgm))
      = [((2025, 9), (5 : ℚ), (Option.none : Option ℚ), (0 : ℚ), (0 : ℚ))] := by
  decide

/-- C3 (amended): a missing **engine** does yield a distinguishable degraded
result (the empty DataFrame), but when a month is present on only one side
the outer merge plus `fillna(0.0)` reports the other side's counts as `0.0`,
indistinguishable from a measured zero (`nips_sgm` alone is left `NaN`). -/
theorem c3_amended (dfPg : List EmbudoPgRow) (dfSgm : List EmbudoSgmRow) :
    getEmbudoConnexaSgmMensual false true dfPg dfSgm = [] ∧
      getEmbudoConnexaSgmMensual true false dfPg dfSgm = [] ∧
      ∀ t ∈ getEmbudoConnexaSgmMensual true true dfPg dfSgm,
        ((dfSgm.find? fun r => decide (r.mes = t.mes)) = Option.none →
            t.oc_sgm = 0 ∧ t.nips_sgm = Option.none ∧ t.bultos_sgm = 0) ∧
          ((dfPg.find? fun r => decide (r.mes = t.mes)) = Option.none →
            t.pedidos_connexa = 0 ∧ t.bultos_connexa = 0 ∧
              t.tasa_conv_pedidos_oc = 0) := by
  refine ⟨by simp [getEmbudoConnexaSgmMensual], by simp [getEmbudoConnexaSgmMensual], ?_⟩
  intro t ht
  simp only [getEmbudoConnexaSgmMensual] at ht
  rw [if_neg (by simp)] at ht
  obtain ⟨mes, hmes, rfl⟩ := List.mem_map.mp ht
  constructor
  · intro hnone
    rw [hnone]
    exact ⟨rfl, rfl, rfl⟩
  · intro hnone
    rw [hnone]
    refine ⟨rfl, rfl, ?_⟩
    rw [if_neg (by norm_num)]

theorem c3_amended_witness :
    getEmbudoConnexaSgmMensual false true [⟨(2025, 9), 5, 10⟩] [] = [] ∧
      getEmbudoConnexaSgmMensual true false [⟨(2025, 9), 5, 10⟩] [] = [] ∧
      ∀ t ∈ getEmbudoConnexaSgmMensual true true [⟨(2025, 9), 5, 10⟩] [],
        ((([] : List EmbudoSgmRow).find? fun r => decide (r.mes = t.mes)) = Option.none →
            t.oc_sgm = 0 ∧ t.nips_sgm = Option.none ∧ t.bultos_sgm = 0) ∧
          ((([⟨(2025, 9), 5, 10⟩] : List EmbudoPgRow).find?
              fun r => decide (r.mes = t.mes)) = Option.none →
            t.pedidos_connexa = 0 ∧ t.bultos_connexa = 0 ∧
              t.tasa_conv_pedidos_oc = 0) :=
  c3_amended [⟨(2025, 9), 5, 10⟩] []

theorem loadUsoSemanalComprador_mem {rows : List UsoCompRow} {d0 d1 : ℕ}
    {t : UsoCompOut} (ht : t ∈ loadUsoSemanalComprador rows d0 d1) :
    ∃ r ∈ rows,
      isoWeekMonday (PyVal.str (pyStrip r.semana)) = some t.semana_inicio ∧
        d0 ≤ t.semana_inicio ∧ t.semana_inicio ≤ d1 ∧
        t.semana_yyyyww = pyStrip r.semana ∧
        t.total_oc_cnx = r.total_oc_cnx.getD 0 ∧
        t.total_oc_sgm = r.total_oc_sgm.getD 0 ∧
        t.pct_connexa_sem =
          (if r.total_oc_sgm.getD 0 ≠ 0 then
            r.total_oc_cnx.getD 0 / r.total_oc_sgm.getD 0
          else 0) := by
  unfold loadUsoSemanalComprador at ht
  obtain ⟨r, hr, hf⟩ := List.mem_filterMap.mp ht
  refine ⟨r, hr, ?_⟩
  split at hf
  · exact Option.noConfusion hf
  · rename_i o hm
    split at hf
    · rename_i hin
      injection hf with h
      subst h
      exact ⟨hm, hin.1, hin.2, rfl, rfl, rfl, rfl⟩
    · exact Option.noConfusion hf

theorem loadUsoSemanalProveedor_mem {rows : List UsoProvRow} {d0 d1 : ℕ}
    {t : UsoProvOut} (ht : t ∈ loadUsoSemanalProveedor rows d0 d1) :
    ∃ r ∈ rows,
      isoWeekMonday (PyVal.str (pyStrip r.semana)) = some t.semana_inicio ∧
        d0 ≤ t.semana_inicio ∧ t.semana_inicio ≤ d1 ∧
        t.semana_yyyyww = pyStrip r.semana := by
  unfold loadUsoSemanalProveedor at ht
  obtain ⟨r, hr, hf⟩ := List.mem_filterMap.mp ht
  refine ⟨r, hr, ?_⟩
  split at hf
  · exact Option.noConfusion hf
  · rename_i o hm
    split at hf
    · rename_i hin
      injection hf with h
      subst h
      exact ⟨hm, hin.1, hin.2, rfl⟩
    · exact Option.noConfusion hf

/-- C4 counterexample: the weekly adoption ratio `pct_connexa_sem` is **not**
undefined when the denominator `total_oc_sgm` is zero — the loader delivers a
defined `0.0` — and when CNX orders exceed SGM orders the ratio exceeds 1, so
it does not always lie in `[0, 1]` either. -/
theorem c4_pct_defined_zero :
    ((loadUsoSemanalComprador
        [⟨some 1, ['2', '0', '2', '5', '-', '3', '7'], some 3, some 0,
          Option.none, Option.none, Option.none, Option.none⟩] 0 1000000).map
        (fun t => (t.total_oc_sgm, t.pct_connexa_sem))
      = [((0 : ℚ), (0 : ℚ))]) ∧
    ∃ t, loadUsoSemanalComprador
        [⟨some 2, ['2', '0', '2', '5', '-', '3', '8'], some 3, some 2,
          Option.none, Option.none, Option.none, Option.none⟩] 0 1000000 = [t] ∧
      t.pct_connexa_sem = 3 / 2 ∧ ¬(t.pct_connexa_sem ≤ 1) := by
  refine ⟨by decide, ⟨some 2, pyStrip ['2', '0', '2', '5', '-', '3', '8'],
    fromisocalendarOrd 2025 38 1, 3, 2, 0, 0, 0, 0, 3 / 2⟩, ?_, rfl, ?_⟩
  · rfl
  · show ¬((3 : ℚ) / 2 ≤ 1)
    norm_num

/-- C4 (amended): the monthly `proporcion_ci` behaves as claimed — every
emitted bucket has a positive denominator, the ratio is `NULL` exactly on a
zero denominator (hence never here), and it lies in `[0, 1]`; but the weekly
`pct_connexa_sem` is a defined `0.0` (not undefined) whenever `total_oc_sgm`
is zero, and lies in `[0, 1]` only under the extra assumption
`0 ≤ total_oc_cnx ≤ total_oc_sgm`, which the source view does not enforce. -/
theorem c4_amended (rows : List UsoCompRow) (d0 d1 : ℕ)
    (t874 cabe : List OcRow) (desde hasta : SqlDate) :
    (∀ t ∈ loadUsoSemanalComprador rows d0 d1,
        (t.total_oc_sgm = 0 → t.pct_connexa_sem = 0) ∧
          (t.total_oc_sgm ≠ 0 → t.pct_connexa_sem = t.total_oc_cnx / t.total_oc_sgm) ∧
          (0 ≤ t.total_oc_cnx → t.total_oc_cnx ≤ t.total_oc_sgm →
            0 ≤ t.pct_connexa_sem ∧ t.pct_connexa_sem ≤ 1)) ∧
      ∀ q ∈ sqlSgmI3Mensual t874 cabe desde hasta,
        (q.proporcion_ci = Option.none ↔ q.oc_totales_sgm = 0) ∧
          1 ≤ q.oc_totales_sgm ∧ q.oc_desde_connexa ≤ q.oc_totales_sgm ∧
          ∃ p, q.proporcion_ci = some p ∧ 0 ≤ p ∧ p ≤ 1 := by
  constructor
  · intro t ht
    obtain ⟨r, -, -, -, -, -, hcnx, hsgm, hpct⟩ := loadUsoSemanalComprador_mem ht
    refine ⟨?_, ?_, ?_⟩
    · intro h0
      rw [hpct, if_neg (by rw [← hsgm]; simpa using h0)]
    · intro hne
      rw [hpct, if_pos (by rw [← hsgm]; exact hne), hcnx, hsgm]
    · intro hc0 hcs
      by_cases h0 : t.total_oc_sgm = 0
      · rw [hpct, if_neg (by rw [← hsgm]; simpa using h0)]
        norm_num
      · have hpos : 0 < t.total_oc_sgm := by
          rcases lt_or_eq_of_le (hc0.trans hcs) with h | h
          · exact h
          · exact absurd h.symm h0
        rw [hpct, if_pos (by rw [← hsgm]; exact h0), ← hcnx, ← hsgm]
        exact ⟨div_nonneg hc0 (le_of_lt hpos), (div_le_one hpos).mpr hcs⟩
  · intro q hq
    obtain ⟨h1, h2, h3⟩ := sqlSgmI3Mensual_mem hq
    refine ⟨?_, h1, h2, ?_⟩
    · rw [h3]
      constructor
      · intro hc
        cases hc
      · intro hc
        omega
    · refine ⟨_, h3, ?_, ?_⟩
      · positivity
      · rw [div_le_one (by positivity)]
        exact_mod_cast h2

/-- C6 counterexample: the weekly loader's output is identical whether the
input had one or two unparseable week rows — the excluded-row count is not
retained anywhere in the result, so no error counter is part of it; the drop
is silent. -/
theorem c6_no_error_counter :
    loadUsoSemanalComprador
        [⟨some 1, ['2', '0', '2', '5', '-', '3', '7'], some 1, some 2,
          Option.none, Option.none, Option.none, Option.none⟩,
         ⟨some 2, ['a', 'b', 'c'], some 1, some 1,
          Option.none, Option.none, Option.none, Option.none⟩] 0 1000000
      = loadUsoSemanalComprador
        [⟨some 1, ['2', '0', '2', '5', '-', '3', '7'], some 1, some 2,
          Option.none, Option.none, Option.none, Option.none⟩,
         ⟨some 2, ['a', 'b', 'c'], some 1, some 1,
          Option.none, Option.none, Option.none, Option.none⟩,
         ⟨some 3, ['x', 'x'], Option.none, Option.none,
          Option.none, Option.none, Option.none, Option.none⟩] 0 1000000 ∧
      droppedCompRowCount
        [⟨some 1, ['2', '0', '2', '5', '-', '3', '7'], some 1, some 2,
          Option.none, Option.none, Option.none, Option.none⟩,
         ⟨some 2, ['a', 'b', 'c'], some 1, some 1,
          Option.none, Option.none, Option.none, Option.none⟩] = 1 ∧
      droppedCompRowCount
        [⟨some 1, ['2', '0', '2', '5', '-', '3', '7'], some 1, some 2,
          Option.none, Option.none, Option.none, Option.none⟩,
         ⟨some 2, ['a', 'b', 'c'], some 1, some 1,
          Option.none, Option.none, Option.none, Option.none⟩,
         ⟨some 3, ['x', 'x'], Option.none, Option.none,
          Option.none, Option.none, Option.none, Option.none⟩] = 2 :=
  ⟨rfl, by decide, by decide⟩

/-- C6 (amended): rows whose week string fails the ISO parse are excluded
from the weekly time series and every retained row keeps its own correctly
parsed week (never shifted to another week); but the number of excluded rows
is **not** retained — appending an unparseable row leaves the loader output
unchanged, so the drop is silent (no error counter in the result). -/
theorem c6_weekly_dropped_silently (rowsC : List UsoCompRow)
    (rowsP : List UsoProvRow) (rC : UsoCompRow) (rP : UsoProvRow) (d0 d1 : ℕ) :
    (∀ t ∈ loadUsoSemanalComprador rowsC d0 d1,
        isoWeekMonday (PyVal.str t.semana_yyyyww) = some t.semana_inicio ∧
          d0 ≤ t.semana_inicio ∧ t.semana_inicio ≤ d1) ∧
      (∀ t ∈ loadUsoSemanalProveedor rowsP d0 d1,
        isoWeekMonday (PyVal.str t.semana_yyyyww) = some t.semana_inicio ∧
          d0 ≤ t.semana_inicio ∧ t.semana_inicio ≤ d1) ∧
      (isoWeekMonday (PyVal.str (pyStrip rC.semana)) = Option.none →
        loadUsoSemanalComprador (rowsC ++ [rC]) d0 d1
          = loadUsoSemanalComprador rowsC d0 d1) ∧
      (isoWeekMonday (PyVal.str (pyStrip rP.semana)) = Option.none →
        loadUsoSemanalProveedor (rowsP ++ [rP]) d0 d1
          = loadUsoSemanalProveedor rowsP d0 d1) := by
  refine ⟨?_, ?_, ?_, ?_⟩
  · intro t ht
    obtain ⟨r, -, hm, h1, h2, hw, -, -, -⟩ := loadUsoSemanalComprador_mem ht
    rw [hw]
    exact ⟨hm, h1, h2⟩
  · intro t ht
    obtain ⟨r, -, hm, h1, h2, hw⟩ := loadUsoSemanalProveedor_mem ht
    rw [hw]
    exact ⟨hm, h1, h2⟩
  · intro h
    unfold loadUsoSemanalComprador
    rw [List.filterMap_append]
    simp [List.filterMap_cons, h]
  · intro h
    unfold loadUsoSemanalProveedor
    rw [List.filterMap_append]
    simp [List.filterMap_cons, h]

theorem c6_weekly_dropped_silently_witness :
    (∀ t ∈ loadUsoSemanalComprador
        [⟨some 1, ['2', '0', '2', '5', '-', '3', '7'], some 1, some 2,
          Option.none, Option.none, Option.none, Option.none⟩] 0 1000000,
        isoWeekMonday (PyVal.str t.semana_yyyyww) = some t.semana_inicio ∧
          0 ≤ t.semana_inicio ∧ t.semana_inicio ≤ 1000000) ∧
      (∀ t ∈ loadUsoSemanalProveedor ([] : List UsoProvRow) 0 1000000,
        isoWeekMonday (PyVal.str t.semana_yyyyww) = some t.semana_inicio ∧
          0 ≤ t.semana_inicio ∧ t.semana_inicio ≤ 1000000) ∧
      (isoWeekMonday (PyVal.str (pyStrip
          (⟨some 2, ['a', 'b', 'c'], some 1, some 1, Option.none, Option.none,
            Option.none, Option.none⟩ : UsoCompRow).semana)) = Option.none →
        loadUsoSemanalComprador
            ([⟨some 1, ['2', '0', '2', '5', '-', '3', '7'], some 1, some 2,
              Option.none, Option.none, Option.none, Option.none⟩] ++
              [⟨some 2, ['a', 'b', 'c'], some 1, some 1, Option.none,
                Option.none, Option.none, Option.none⟩]) 0 1000000
          = loadUsoSemanalComprador
            [⟨some 1, ['2', '0', '2', '5', '-', '3', '7'], some 1, some 2,
              Option.none, Option.none, Option.none, Option.none⟩] 0 1000000) ∧
      (isoWeekMonday (PyVal.str (pyStrip
          (⟨some 1, ['z'], Option.none, Option.none, Option.none, Option.none,
            Option.none⟩ : UsoProvRow).semana)) = Option.none →
        loadUsoSemanalProveedor
            (([] : List UsoProvRow) ++
              [⟨some 1, ['z'], Option.none, Option.none, Option.none,
                Option.none, Option.none⟩]) 0 1000000
          = loadUsoSemanalProveedor ([] : List UsoProvRow) 0 1000000) :=
  c6_weekly_dropped_silently
    [⟨some 1, ['2', '0', '2', '5', '-', '3', '7'], some 1, some 2,
      Option.none, Option.none, Option.none, Option.none⟩] []
    ⟨some 2, ['a', 'b', 'c'], some 1, some 1, Option.none, Option.none,
      Option.none, Option.none⟩
    ⟨some 1, ['z'], Option.none, Option.none, Option.none, Option.none,
      Option.none⟩ 0 1000000

/-- C7: the duplicate report of `SQL_SGM_KIKKER_DUP` contains exactly the
source keys (`C_COMPRA_KIKKER`) whose records in the date window map to more
than one distinct destination key (`oc_sgm`) value, paired with that distinct
count; a source key mapping to zero or one distinct destination key never
appears. -/
theorem c7_dup_report (rows : List KikkerRow) (desde hasta : SqlDate)
    (k : Option ℤ) (c : ℕ) :
    (k, c) ∈ sqlKikkerDup rows desde hasta ↔
      ((∃ r ∈ rows, inRange desde hasta r.f_alta ∧ r.c_compra_kikker = k) ∧
        c = kikkerDistinctOcCount rows desde hasta k ∧ 1 < c) := by
  simp only [sqlKikkerDup]
  rw [List.mem_filterMap]
  constructor
  · rintro ⟨k', hk', hf⟩
    split at hf
    · rename_i hcnt
      injection hf with h
      injection h with h1 h2
      subst h1
      subst h2
      rw [List.mem_dedup] at hk'
      obtain ⟨r, hrw, hrk⟩ := List.mem_map.mp hk'
      rw [List.mem_filter] at hrw
      exact ⟨⟨r, hrw.1, of_decide_eq_true hrw.2, hrk⟩, rfl, hcnt⟩
    · exact Option.noConfusion hf
  · rintro ⟨⟨r, hr, hin, hk⟩, rfl, hc⟩
    refine ⟨k, ?_, ?_⟩
    · rw [List.mem_dedup]
      refine List.mem_map.mpr ⟨r, ?_, hk⟩
      rw [List.mem_filter]
      exact ⟨hr, by simpa using hin⟩
    · rw [if_pos hc]

/-- C8 counterexample: in the fallback stock query, a row whose upstream
`dias_stock` is a non-zero value (here 25) keeps that coverage even though
its 30-day average daily consumption is zero — coverage is **not** undefined
on every zero-consumption row. -/
theorem c8_coverage_defined_without_consumption :
    (prepararStockRow 7
        ⟨some 10, some 0, some 25, Option.none, Option.none, Option.none,
          Option.none⟩).dias_stock = some 25 ∧
      (prepararStockRow 7
        ⟨some 10, some 0, some 25, Option.none, Option.none, Option.none,
          Option.none⟩).venta_promedio_diaria_30d = 0 := by
  constructor <;> rfl

/-- C8 (amended): `dias_stock` is undefined (`NULL`/`NaN`, never zero or
infinity) when consumption is zero **and** the upstream `dias_stock` field is
itself zero or `NULL` (a non-zero upstream value wins regardless of
consumption); the over-stock flag behaves exactly as claimed: unknown
`q_dias_stock` gives `False`, and otherwise the threshold is
`q_dias_stock + tolerancia_dias` compared against a defined `dias_stock`. -/
theorem c8_amended (r : StockSrcRow) (tol : ℚ) :
    (r.dias_stock.getD 0 = 0 → r.venta_promedio_diaria_30d.getD 0 = 0 →
        (prepararStockRow tol r).dias_stock = Option.none) ∧
      (r.q_dias_stock = Option.none →
        (prepararStockRow tol r).sobre_stock_param = false) ∧
      ∀ q, r.q_dias_stock = some q →
        (prepararStockRow tol r).dias_max_objetivo = some (q + tol) ∧
          ((prepararStockRow tol r).sobre_stock_param = true ↔
            ∃ ds, (prepararStockRow tol r).dias_stock = some ds ∧ q + tol < ds) := by
  refine ⟨?_, ?_, ?_⟩
  · intro hz hv
    show fallbackDiasStock r = Option.none
    unfold fallbackDiasStock
    cases hd : r.dias_stock with
    | none => simp [hv]
    | some v =>
      rw [hd] at hz
      simp only [Option.getD_some] at hz
      simp [hz, hv]
  · intro hq
    show (match r.q_dias_stock.map (fun q => q + tol) with
      | some m =>
        match fallbackDiasStock r with
        | some ds => decide (m < ds)
        | Option.none => false
      | Option.none => false) = false
    rw [hq]
    rfl
  · intro q hq
    constructor
    · show r.q_dias_stock.map (fun q => q + tol) = some (q + tol)
      rw [hq]
      rfl
    · show (match r.q_dias_stock.map (fun q => q + tol) with
        | some m =>
          match fallbackDiasStock r with
          | some ds => decide (m < ds)
          | Option.none => false
        | Option.none => false) = true ↔
          ∃ ds, fallbackDiasStock r = some ds ∧ q + tol < ds
      rw [hq]
      cases hds : fallbackDiasStock r with
      | none => simp
      | some ds => simp

/-- C9: `bajo_stock_minimo` is exactly `stock + stock_reserva < stock_minimo`
and `sin_venta_30d_con_stock` is exactly `consumption == 0 and stock_total >
0`; the flags are computed independently, and on a concrete row (stock total
5 below minimum 10, zero consumption) both are simultaneously true and both
are reported. -/
theorem c9_flags_independent (r : StockSrcRow) (tol : ℚ) :
    ((prepararStockRow tol r).bajo_stock_minimo
        = decide (r.stock.getD 0 + r.stock_reserva.getD 0 < r.stock_minimo.getD 0)) ∧
      ((prepararStockRow tol r).sin_venta_30d_con_stock
        = decide (r.venta_promedio_diaria_30d.getD 0 = 0 ∧
            0 < r.stock.getD 0 + r.stock_reserva.getD 0)) ∧
      ((prepararStockRow tol
          ⟨some 5, some 0, Option.none, Option.none, Option.none, some 0,
            some 10⟩).bajo_stock_minimo = true ∧
        (prepararStockRow tol
          ⟨some 5, some 0, Option.none, Option.none, Option.none, some 0,
            some 10⟩).sin_venta_30d_con_stock = true) := by
  refine ⟨rfl, rfl, ?_, ?_⟩
  · show decide ((5 : ℚ) + 0 < 10) = true
    rw [decide_eq_true_eq]
    norm_num
  · show decide ((0 : ℚ) = 0 ∧ 0 < (5 : ℚ) + 0) = true
    rw [decide_eq_true_eq]
    norm_num

theorem c4_amended_witness :
    (∀ t ∈ loadUsoSemanalComprador
        [⟨some 1, ['2', '0', '2', '5', '-', '3', '7'], some 1, some 2,
          Option.none, Option.none, Option.none, Option.none⟩] 0 1000000,
        (t.total_oc_sgm = 0 → t.pct_connexa_sem = 0) ∧
          (t.total_oc_sgm ≠ 0 → t.pct_connexa_sem = t.total_oc_cnx / t.total_oc_sgm) ∧
          (0 ≤ t.total_oc_cnx → t.total_oc_cnx ≤ t.total_oc_sgm →
            0 ≤ t.pct_connexa_sem ∧ t.pct_connexa_sem ≤ 1)) ∧
      ∀ q ∈ sqlSgmI3Mensual [⟨some ⟨2025, 9, 10⟩, some 4, some 9⟩]
          [⟨some ⟨2025, 9, 12⟩, some 4, some 9⟩] ⟨2025, 9, 1⟩ ⟨2025, 9, 30⟩,
        (q.proporcion_ci = Option.none ↔ q.oc_totales_sgm = 0) ∧
          1 ≤ q.oc_totales_sgm ∧ q.oc_desde_connexa ≤ q.oc_totales_sgm ∧
          ∃ p, q.proporcion_ci = some p ∧ 0 ≤ p ∧ p ≤ 1 :=
  c4_amended
    [⟨some 1, ['2', '0', '2', '5', '-', '3', '7'], some 1, some 2,
      Option.none, Option.none, Option.none, Option.none⟩] 0 1000000
    [⟨some ⟨2025, 9, 10⟩, some 4, some 9⟩]
    [⟨some ⟨2025, 9, 12⟩, some 4, some 9⟩] ⟨2025, 9, 1⟩ ⟨2025, 9, 30⟩

theorem c8_amended_witness :
    ((⟨some 10, some 0, some 0, some 3, Option.none, some 0, Option.none⟩ :
        StockSrcRow).dias_stock.getD 0 = 0 →
      (⟨some 10, some 0, some 0, some 3, Option.none, some 0, Option.none⟩ :
        StockSrcRow).venta_promedio_diaria_30d.getD 0 = 0 →
        (prepararStockRow 7
          ⟨some 10, some 0, some 0, some 3, Option.none, some 0,
            Option.none⟩).dias_stock = Option.none) ∧
      ((⟨some 10, some 0, some 0, some 3, Option.none, some 0, Option.none⟩ :
          StockSrcRow).q_dias_stock = Option.none →
        (prepararStockRow 7
          ⟨some 10, some 0, some 0, some 3, Option.none, some 0,
            Option.none⟩).sobre_stock_param = false) ∧
      ∀ q, (⟨some 10, some 0, some 0, some 3, Option.none, some 0,
          Option.none⟩ : StockSrcRow).q_dias_stock = some q →
        (prepararStockRow 7
          ⟨some 10, some 0, some 0, some 3, Option.none, some 0,
            Option.none⟩).dias_max_objetivo = some (q + 7) ∧
          ((prepararStockRow 7
            ⟨some 10, some 0, some 0, some 3, Option.none, some 0,
              Option.none⟩).sobre_stock_param = true ↔
            ∃ ds, (prepararStockRow 7
              ⟨some 10, some 0, some 0, some 3, Option.none, some 0,
                Option.none⟩).dias_stock = some ds ∧ q + 7 < ds) :=
  c8_amended ⟨some 10, some 0, some 0, some 3, Option.none, some 0, Option.none⟩ 7
